import Mathlib

/-!
Verification of `src/main.py` (semantic-kernel-playground).

The script defines a `LightsPlugin` class holding a mutable list of light
dicts, with two methods exposed as kernel functions (`get_state`,
`change_state`), and an async `main` that reads console input in a loop,
appends user/assistant turns to a `ChatHistory`, and calls an external
chat-completion service.

The embedding below models:
* the device store and its two operations at value level (`lights`,
  `get_state`, `change_state`);
* Python object identity for the aliasing behaviour of
  `return self.lights` (`PyStore`);
* the session loop of `main` (`sessionStep`, `runSession`, `runMain`);
* the tool-resolution loop of spec §4.4, which in the running program
  lives inside the semantic-kernel library call, not in this repository
  (`resolutionLoop`).
-/

/-- A light device record, as in the dicts of `LightsPlugin.lights`:
`{"id": ..., "name": ..., "is_on": ...}`. Python integers are unbounded,
hence `Int`. -/
structure Device where
  id : Int
  name : String
  is_on : Bool
  deriving DecidableEq, Repr

/-- The seed data of `LightsPlugin.lights` (src/main.py lines 39-43). -/
def lights : List Device :=
  [ { id := 1, name := "Table Lamp", is_on := false },
    { id := 2, name := "Porch light", is_on := false },
    { id := 3, name := "Chandelier", is_on := true } ]

/-- Value-level semantics of `LightsPlugin.get_state`: `return self.lights`
returns the store's list (see `PyStore.get_state` for the object-identity
view of the same statement). -/
def get_state (ds : List Device) : List Device := ds

/-- Value-level semantics of `LightsPlugin.change_state` (src/main.py lines
64-83): scan the list in order; on the first device whose `id` equals
`light_id`, set its `is_on` field in place and return the updated record;
if no device matches, return `None`. The result pairs the Python return
value with the store after the call. -/
def change_state : List Device → Int → Bool → Option Device × List Device
  | [], _, _ => (none, [])
  | d :: ds, light_id, is_on =>
    if d.id = light_id then
      (some { d with is_on := is_on }, { d with is_on := is_on } :: ds)
    else
      let rest := change_state ds light_id is_on
      (rest.1, d :: rest.2)

/-- One operation against the store, as invocable through the registered
kernel functions. -/
inductive Op where
  | getLights
  | changeState (id : Int) (b : Bool)

/-- Effect of one operation on the store: `get_state` reads without
modifying; `change_state` replaces the store with its updated list. -/
def applyOp (ds : List Device) : Op → List Device
  | Op.getLights => get_state ds
  | Op.changeState i b => (change_state ds i b).2

/-- The store after a sequence of operations starting from the seed data. -/
def runOps (ops : List Op) : List Device :=
  ops.foldl applyOp lights

/-- Object-identity model of the Python store: device dicts are mutable
objects living in a heap, and the `lights` list of the plugin holds
references (heap addresses) to them. -/
structure PyStore where
  heap : List Device
  lights : List Nat
  deriving DecidableEq, Repr

/-- The seed store: three dicts at addresses 0, 1, 2, referenced in order
by the `lights` list object. -/
def seedStore : PyStore := { heap := lights, lights := [0, 1, 2] }

/-- `LightsPlugin.get_state` under object identity: `return self.lights`
hands the caller the very list object the store uses, i.e. the same
references to the store's own dicts. -/
def PyStore.get_state (s : PyStore) : List Nat := s.lights

/-- Write the `is_on` field of the dict at heap address `a`. -/
def heapSetIsOn : List Device → Nat → Bool → List Device
  | [], _, _ => []
  | d :: ds, 0, b => { d with is_on := b } :: ds
  | d :: ds, n + 1, b => d :: heapSetIsOn ds n b

/-- A caller mutating a device dict it obtained by reference: the write
goes straight to the heap. -/
def PyStore.writeIsOn (s : PyStore) (a : Nat) (b : Bool) : PyStore :=
  { s with heap := heapSetIsOn s.heap a b }

/-- The store's observable contents: the device record each entry of the
`lights` list currently refers to. -/
def PyStore.view (s : PyStore) : List (Option Device) :=
  s.lights.map fun a => s.heap[a]?

/-- Roles of conversation turns in the chat history. -/
inductive Role where
  | user
  | assistant
  | toolResult
  deriving DecidableEq, Repr

/-- One conversation turn; `requestId` is set only on tool-result turns,
pairing the result with the tool call that requested it. -/
structure Turn where
  role : Role
  content : String
  requestId : Option Nat := none
  deriving DecidableEq, Repr

/-- State visible to the session loop of `main` (src/main.py lines
117-143): the chat history, the number of calls made to the completion
service, and the lines printed to the console. -/
structure SessionState where
  history : List Turn
  svcCalls : Nat
  outputs : List String
  deriving DecidableEq, Repr

/-- One iteration of the `while True` loop of `main`: read `input`; if it
is the literal `"exit"`, break (result `none`, state untouched); otherwise
append the user turn, call the completion service on the updated history,
print the reply prefixed `Assistant > `, and append the assistant turn.
The completion service is the scripted external collaborator of spec §6:
a function from the history snapshot to the reply text. -/
def sessionStep (svc : List Turn → String) (s : SessionState) (input : String) :
    Option SessionState :=
  if input = "exit" then
    none
  else
    let h1 := s.history ++ [{ role := Role.user, content := input }]
    let reply := svc h1
    some { history := h1 ++ [{ role := Role.assistant, content := reply }],
           svcCalls := s.svcCalls + 1,
           outputs := s.outputs ++ ["Assistant > " ++ reply] }

/-- The session loop over a script of input lines. Breaking out via
`"exit"` lets `main` return, so `asyncio.run` completes and the process
exits with code 0 (`some 0`); exhausting the script without an exit
sentinel is `none` (in the real program `input()` would block or raise). -/
def runSession (svc : List Turn → String) :
    SessionState → List String → SessionState × Option Nat
  | s, [] => (s, none)
  | s, i :: rest =>
    match sessionStep svc s i with
    | none => (s, some 0)
    | some s' => runSession svc s' rest

/-- Python exceptions relevant to startup: `environ["OPENAI_API_KEY"]`
raises `KeyError('OPENAI_API_KEY')` when the variable is unset
(src/main.py line 98). -/
inductive PyError where
  | keyError (key : String)
  deriving DecidableEq, Repr

/-- `main` as a function of the process environment, the completion
service and the input script: the `OPENAI_API_KEY` lookup happens during
startup, before the chat loop is entered; only if it succeeds does the
session loop run. -/
def runMain (env : String → Option String) (svc : List Turn → String)
    (inputs : List String) : Except PyError (SessionState × Option Nat) :=
  match env "OPENAI_API_KEY" with
  | none => Except.error (PyError.keyError "OPENAI_API_KEY")
  | some _ => Except.ok (runSession svc { history := [], svcCalls := 0, outputs := [] } inputs)

/-- Outcome of invoking a registered tool: its returned value, or the
captured failure description reported back to the model. -/
inductive ToolOutcome where
  | value (v : String)
  | failure (desc : String)
  deriving DecidableEq, Repr

/-- A model-issued tool call: request identifier, tool name, argument
mapping. -/
structure ToolCall where
  requestId : Nat
  name : String
  arguments : List (String × String)
  deriving DecidableEq, Repr

/-- The completion service's reply is polymorphic over two variants:
a final answer, or a batch of one or more tool calls. -/
inductive ModelReply where
  | finalAnswer (text : String)
  | toolCallBatch (calls : List ToolCall)
  deriving DecidableEq, Repr

/-- Errors the tool-resolution loop can fail with. -/
inductive LoopError where
  | toolLoopExceeded
  deriving DecidableEq, Repr

/-- Render a tool outcome as the content of a tool-result turn. -/
def toolOutcomeText : ToolOutcome → String
  | ToolOutcome.value v => v
  | ToolOutcome.failure d => d

/-- Modelled from the spec: the Tool-Resolution Loop of §4.4 is executed
inside the semantic-kernel library call
`chat_completion.get_chat_message_content(...)` with
`FunctionChoiceBehavior.Auto()` (src/main.py lines 112-137), so its code is
not in this repository. Following §4.4: each round sends the history to
the service; a final answer is appended as an assistant turn and the loop
is done; a tool-call batch invokes each call in order, appends a
tool-result turn carrying the request identifier and the returned value or
failure description, and loops; exhausting the configured maximum round
count fails with `ToolLoopExceededError`. -/
def resolutionLoop (svc : List Turn → ModelReply)
    (invoke : String → List (String × String) → ToolOutcome) :
    Nat → List Turn → Except LoopError (List Turn)
  | 0, _ => Except.error LoopError.toolLoopExceeded
  | n + 1, history =>
    match svc history with
    | ModelReply.finalAnswer t =>
        Except.ok (history ++ [{ role := Role.assistant, content := t }])
    | ModelReply.toolCallBatch calls =>
        resolutionLoop svc invoke n
          (history ++ calls.map fun c =>
            { role := Role.toolResult,
              content := toolOutcomeText (invoke c.name c.arguments),
              requestId := some c.requestId })

/-- A scripted completion service that returns a tool-call batch on every
round. -/
def svcAllTools : List Turn → ModelReply := fun _ =>
  ModelReply.toolCallBatch
    [ { requestId := 1, name := "change_state",
        arguments := [("light_id", "2"), ("is_on", "true")] } ]

/-- A registry stub whose every invocation succeeds. -/
def invokeOk : String → List (String × String) → ToolOutcome := fun _ _ =>
  ToolOutcome.value "ok"

/-- A scripted completion service returning a fixed final answer. -/
def svcEcho : List Turn → String := fun _ => "The porch light is now on."

/-- C3: `change_state` on an identifier absent from the store returns
`None` (no exception in the embedding: the function is total) and leaves
the store unchanged, so no device is mutated. -/
theorem change_state_absent_id_not_found (ds : List Device) (i : Int) (b : Bool)
    (h : ∀ d ∈ ds, d.id ≠ i) :
    change_state ds i b = (none, ds) := by
  induction ds with
  | nil => rfl
  | cons d ds ih =>
    have hd : d.id ≠ i := h d (List.mem_cons_self d ds)
    have ht : ∀ x ∈ ds, x.id ≠ i := fun x hx => h x (List.mem_cons_of_mem d hx)
    simp [change_state, hd, ih ht]

/-- Witness for `change_state_absent_id_not_found`: identifier 4 is absent
from the seed store. -/
theorem change_state_absent_id_witness :
    change_state lights 4 true = (none, lights) :=
  change_state_absent_id_not_found lights 4 true (by decide)

/-- C10: `change_state` is idempotent. Calling it a second time with the
same identifier and value finds the same device (its `id` was not touched)
and rewrites `is_on` to the value it already has, returning the same
record and leaving the store as after the first call. -/
theorem change_state_idempotent (ds : List Device) (i : Int) (b : Bool) :
    change_state (change_state ds i b).2 i b = change_state ds i b := by
  induction ds with
  | nil => rfl
  | cons d ds ih =>
    by_cases h : d.id = i
    · simp [change_state, h]
    · simp [change_state, h, ih]

/-- C4: after `change_state id true`, the list returned by `get_state`
shows the device with identifier `id` as on, for every identifier present
in the seed set. -/
theorem set_power_then_get_state_shows_on (i : Int)
    (h : ∃ d ∈ lights, d.id = i) :
    ∃ d ∈ get_state (change_state lights i true).2, d.id = i ∧ d.is_on = true := by
  obtain ⟨d, hd, rfl⟩ := h
  fin_cases hd <;> decide

/-- Witness for `set_power_then_get_state_shows_on` at identifier 2. -/
theorem set_power_then_get_state_witness :
    ∃ d ∈ get_state (change_state lights 2 true).2, d.id = (2 : Int) ∧ d.is_on = true :=
  set_power_then_get_state_shows_on 2 (by decide)

/-- Mapping the conditional `is_on` rewrite over devices none of which
carries the target identifier changes nothing. -/
theorem map_flip_no_match (ds : List Device) (i : Int) (b : Bool)
    (h : ∀ e ∈ ds, e.id ≠ i) :
    (ds.map fun e => if e.id = i then { e with is_on := b } else e) = ds := by
  induction ds with
  | nil => rfl
  | cons d ds ih =>
    have hd : d.id ≠ i := h d (List.mem_cons_self d ds)
    have ht : ∀ x ∈ ds, x.id ≠ i := fun x hx => h x (List.mem_cons_of_mem d hx)
    simp [hd, ih ht]

/-- C5: on a store with pairwise-distinct identifiers, `change_state`
returns the updated record of the device carrying the requested
identifier — same `id`, same `name`, `is_on` set to the argument — and the
resulting store rewrites exactly the devices with that identifier (hence,
by uniqueness, only that one), leaving every other device unchanged. -/
theorem change_state_updates_only_target (ds : List Device) (d : Device) (b : Bool)
    (hnodup : (ds.map Device.id).Nodup) (hd : d ∈ ds) :
    change_state ds d.id b =
      (some { d with is_on := b },
       ds.map fun e => if e.id = d.id then { e with is_on := b } else e) := by
  induction ds with
  | nil => cases hd
  | cons a ds ih =>
    have hnd : (∀ x ∈ ds, ¬ x.id = a.id) ∧ (ds.map Device.id).Nodup := by
      simpa using hnodup
    rcases List.mem_cons.mp hd with rfl | hmem
    · have hno : ∀ e ∈ ds, e.id ≠ d.id := hnd.1
      simp [change_state, map_flip_no_match ds d.id b hno]
    · have hne : a.id ≠ d.id := fun hc => hnd.1 d hmem hc.symm
      have hrec := ih hnd.2 hmem
      simp [change_state, hne, hrec]

/-- Witness for `change_state_updates_only_target`: turning on the porch
light (identifier 2) in the seed store. -/
theorem change_state_updates_only_target_witness :
    change_state lights 2 true =
      (some { id := 2, name := "Porch light", is_on := true },
       lights.map fun e => if e.id = 2 then { e with is_on := true } else e) :=
  change_state_updates_only_target lights
    { id := 2, name := "Porch light", is_on := false } true (by decide) (by decide)

/-- `change_state` never touches the `id` column of the store. -/
theorem change_state_preserves_ids (ds : List Device) (i : Int) (b : Bool) :
    ((change_state ds i b).2).map Device.id = ds.map Device.id := by
  induction ds with
  | nil => rfl
  | cons d ds ih =>
    by_cases h : d.id = i
    · simp [change_state, h]
    · simp [change_state, h, ih]

/-- Folding any sequence of operations over a store leaves its `id` column
unchanged. -/
theorem foldl_ops_preserve_ids (ops : List Op) :
    ∀ ds : List Device, (ops.foldl applyOp ds).map Device.id = ds.map Device.id := by
  induction ops with
  | nil => intro ds; rfl
  | cons op ops ih =>
    intro ds
    cases op with
    | getLights => simpa [applyOp, get_state] using ih ds
    | changeState i b =>
        have h := ih (change_state ds i b).2
        simpa [applyOp, change_state_preserves_ids] using h

/-- C6: after any sequence of `get_state` / `change_state` operations on
the seed data, the store still holds exactly three devices with
pairwise-distinct identifiers — no device is ever created or deleted
(its `id` column stays `[1, 2, 3]` throughout). -/
theorem store_size_and_id_uniqueness_invariant (ops : List Op) :
    (runOps ops).length = 3 ∧ ((runOps ops).map Device.id).Nodup := by
  have h : (runOps ops).map Device.id = [1, 2, 3] := by
    simpa [lights] using foldl_ops_preserve_ids ops lights
  constructor
  · have hl := congrArg List.length h
    simpa using hl
  · rw [h]; decide

/-- If two maps over the same list are equal, they agree on every element
of the list. -/
theorem eq_of_map_eq_of_mem {α β : Type} {f g : α → β} :
    ∀ {l : List α}, l.map f = l.map g → ∀ {a : α}, a ∈ l → f a = g a := by
  intro l
  induction l with
  | nil => intro _ a ha; cases ha
  | cons x xs ih =>
    intro h a ha
    simp only [List.map_cons, List.cons.injEq] at h
    rcases List.mem_cons.mp ha with rfl | hm
    · exact h.1
    · exact ih h.2 hm

/-- Writing `is_on` at a live heap address updates exactly that cell. -/
theorem heapSetIsOn_getElem :
    ∀ (h : List Device) (a : Nat) (b : Bool) (d : Device),
      h[a]? = some d → (heapSetIsOn h a b)[a]? = some { d with is_on := b } := by
  intro h
  induction h with
  | nil => intro a b d hd; simp at hd
  | cons x xs ih =>
    intro a b d hd
    cases a with
    | zero =>
        simp only [List.getElem?_cons_zero, Option.some.injEq] at hd
        subst hd
        simp [heapSetIsOn]
    | succ n =>
        simp only [List.getElem?_cons_succ] at hd
        simpa [heapSetIsOn] using ih n b d hd

/-- Counterexample to C2 as stated: in the seed store, mutating the first
device dict reached through the list returned by `get_state` does change
the store — the claim that the returned value is a copy is false. -/
theorem get_state_alias_counterexample :
    ¬ (PyStore.view (seedStore.writeIsOn ((PyStore.get_state seedStore).headD 0) true)
        = PyStore.view seedStore) := by
  decide

/-- C2 amended: `get_state` returns a live reference to the store's
internal list, so a caller's write through any reference it returns — to a
device whose `is_on` differs from the written value — changes the store's
observable contents. -/
theorem get_state_returns_live_reference (s : PyStore) (a : Nat) (d : Device) (b : Bool)
    (ha : a ∈ PyStore.get_state s) (hd : s.heap[a]? = some d) (hb : d.is_on ≠ b) :
    PyStore.view (s.writeIsOn a b) ≠ PyStore.view s := by
  intro hview
  have hmaps :
      (s.lights.map fun x => (heapSetIsOn s.heap a b)[x]?)
        = s.lights.map fun x => s.heap[x]? := hview
  have hpt := eq_of_map_eq_of_mem hmaps ha
  rw [heapSetIsOn_getElem s.heap a b d hd, hd] at hpt
  have hfields := Option.some.inj hpt
  exact hb (congrArg Device.is_on hfields).symm

/-- Witness for `get_state_returns_live_reference`: writing `true` through
the first reference returned on the seed store (the Table Lamp dict at
address 0, currently off). -/
theorem get_state_live_reference_witness :
    PyStore.view (seedStore.writeIsOn 0 true) ≠ PyStore.view seedStore :=
  get_state_returns_live_reference seedStore 0
    { id := 1, name := "Table Lamp", is_on := false } true
    (by decide) (by decide) (by decide)

/-- C7: when the input line is the literal `"exit"`, the loop breaks
before any history append or service call: the session state (history,
service-call count, console output) is returned untouched and the process
exits with code 0. -/
theorem exit_input_terminates_cleanly (svc : List Turn → String)
    (s : SessionState) (rest : List String) :
    runSession svc s ("exit" :: rest) = (s, some 0) := by
  simp [runSession, sessionStep]

/-- C8: one iteration of the session loop on a non-exit input appends the
user turn and then the final-answer turn: the history grows by exactly 2
and its last turn has role assistant. -/
theorem turn_roundtrip_adds_two (svc : List Turn → String) (s : SessionState)
    (input : String) (h : input ≠ "exit") :
    (sessionStep svc s input).map
        (fun s' => (s'.history.length, s'.history.getLast?.map Turn.role))
      = some (s.history.length + 2, some Role.assistant) := by
  simp [sessionStep, h, List.getLast?_concat]

/-- Witness for `turn_roundtrip_adds_two`: one iteration on the empty
history with a scripted service. -/
theorem turn_roundtrip_witness :
    (sessionStep svcEcho { history := [], svcCalls := 0, outputs := [] }
        "turn on the porch light").map
        (fun s' => (s'.history.length, s'.history.getLast?.map Turn.role))
      = some (2, some Role.assistant) :=
  turn_roundtrip_adds_two svcEcho
    { history := [], svcCalls := 0, outputs := [] }
    "turn on the porch light" (by decide)

/-- C9: `main` fails during startup — before the chat loop runs — exactly
when `OPENAI_API_KEY` is unset, with a `KeyError` naming the missing
variable; startup succeeds exactly when the variable is present. -/
theorem missing_api_key_fails_startup (env : String → Option String)
    (svc : List Turn → String) (inputs : List String) :
    (runMain env svc inputs = Except.error (PyError.keyError "OPENAI_API_KEY")
        ↔ env "OPENAI_API_KEY" = none) ∧
    ((runMain env svc inputs).isOk ↔ (env "OPENAI_API_KEY").isSome) := by
  cases henv : env "OPENAI_API_KEY" <;>
    simp [runMain, henv, Except.isOk, Except.toBool]

/-- C1: if the completion service returns a tool-call batch on every
round, the tool-resolution loop terminates by failing with
`ToolLoopExceededError` once the configured maximum round count is
exhausted, for every bound and every starting history — it never loops
unboundedly. -/
theorem resolutionLoop_all_toolcalls_exceeds_bound
    (svc : List Turn → ModelReply)
    (invoke : String → List (String × String) → ToolOutcome)
    (h : ∀ hist, ∃ calls, svc hist = ModelReply.toolCallBatch calls) :
    ∀ (maxRounds : Nat) (hist : List Turn),
      resolutionLoop svc invoke maxRounds hist
        = Except.error LoopError.toolLoopExceeded := by
  intro maxRounds
  induction maxRounds with
  | zero => intro hist; rfl
  | succ n ih =>
    intro hist
    obtain ⟨calls, hc⟩ := h hist
    simp [resolutionLoop, hc, ih]

/-- Witness for `resolutionLoop_all_toolcalls_exceeds_bound`: a scripted
service that always requests `change_state`, a round bound of 3, and an
empty starting history. -/
theorem resolutionLoop_exceeds_bound_witness :
    resolutionLoop svcAllTools invokeOk 3 []
      = Except.error LoopError.toolLoopExceeded :=
  resolutionLoop_all_toolcalls_exceeds_bound svcAllTools invokeOk
    (fun _ => ⟨_, rfl⟩) 3 []
